import Mathlib

/-!
Verification of the frontend bootstrap module of cleanpro-service
(src/frontend/src/main.jsx).  The module resolves the mount point
`document.getElementById("root")`, creates a render root bound to it via
`ReactDOM.createRoot`, and renders `<React.StrictMode><App /></React.StrictMode>`
into that root, with the global stylesheet imported as an import-time side
effect.  The rendering framework and the host DOM are external collaborators;
their contracts are modelled from the specification, while the bootstrap
sequence itself is embedded from the source.
-/

namespace CleanproBootstrap

/-- Modelled from the spec: an element of the host document presentation tree,
carrying its identifier attribute and its rendered text content. -/
structure Element where
  id : String
  textContent : String
deriving DecidableEq, Repr

/-- Modelled from the spec: the host document, flattened to a list of elements;
a node's identity is its position in the list. -/
abbrev Doc := List Element

/-- Modelled from the spec: `document.getElementById` resolves the first
element carrying the given identifier, yielding its position, or `none` when
no element matches. -/
def getElementById (d : Doc) (i : String) : Option Nat :=
  match d with
  | [] => none
  | e :: rest => if e.id == i then some 0 else (getElementById rest i).map (· + 1)

/-- The application component tree as the bootstrap sees it: literal text,
sibling composition, a component with a side-effecting lifecycle hook, and the
diagnostic (strict-mode) wrapper. -/
inductive VNode where
  | text : String → VNode
  | pair : VNode → VNode → VNode
  | effectful : String → VNode → VNode
  | strictMode : VNode → VNode
deriving DecidableEq, Repr

/-- Modelled from the spec: one render pass over a component tree, threading
the diagnostic flag.  It yields the rendered text output together with the
ordered list of lifecycle-hook invocations; under the diagnostic flag each
hook fires twice, and the flag is switched on below a strict-mode wrapper. -/
def renderRun : Bool → VNode → String × List String
  | _, .text s => (s, [])
  | strict, .pair a b =>
      ((renderRun strict a).1 ++ (renderRun strict b).1,
       (renderRun strict a).2 ++ (renderRun strict b).2)
  | strict, .effectful n c =>
      ((renderRun strict c).1,
       (if strict then [n, n] else [n]) ++ (renderRun strict c).2)
  | _, .strictMode c => renderRun true c

/-- Modelled from the spec: a render root, an opaque framework handle bound
1:1 to the mount point it was created against. -/
structure Root where
  container : Nat
deriving DecidableEq, Repr

/-- Modelled from the spec: `ReactDOM.createRoot` binds a fresh render root to
the given mount point; a null target is an unhandled environment-precondition
fault surfaced on the uncaught-error channel. -/
def createRoot : Option Nat → Except String Root
  | none => Except.error "createRoot: Target container is not a DOM element."
  | some n => Except.ok ⟨n⟩

/-- Modelled from the spec: rendering a component tree into a root replaces
the rendered content of the bound element, leaving its identifier and every
other node of the document untouched. -/
def Root.render (r : Root) (t : VNode) (d : Doc) : Doc :=
  match d[r.container]? with
  | none => d
  | some e => d.set r.container { id := e.id, textContent := (renderRun false t).1 }

/-- Observable effects issued by the bootstrap, in program order. -/
inductive Effect where
  | styleLoad : String → Effect
  | lookup : String → Effect
  | createRoot : Nat → Effect
  | renderPass : VNode → Effect
deriving DecidableEq, Repr

/-- Classifier for mount-point lookup effects. -/
def Effect.isLookup : Effect → Bool
  | .lookup _ => true
  | _ => false

/-- Classifier for render-root creation effects. -/
def Effect.isCreateRoot : Effect → Bool
  | .createRoot _ => true
  | _ => false

/-- Classifier for render-pass effects. -/
def Effect.isRenderPass : Effect → Bool
  | .renderPass _ => true
  | _ => false

/-- Classifier for stylesheet-load effects. -/
def Effect.isStyleLoad : Effect → Bool
  | .styleLoad _ => true
  | _ => false

/-- The stylesheet asset imported by the bootstrap module. -/
def stylesheetPath : String := "./assets/styles/GlobalStyle.scss"

/-- Outcome of one run of the bootstrap module: the final document, the
ordered effect trace, and the uncaught error if one was raised. -/
structure Outcome where
  doc : Doc
  trace : List Effect
  error : Option String
deriving DecidableEq, Repr

/-- Shallow embedding of src/frontend/src/main.jsx.  The stylesheet import
fires as an import-time side effect; then the module body evaluates
`ReactDOM.createRoot(document.getElementById("root")).render(` wrapping the
application component in `React.StrictMode`.  The application component `App`
is an opaque collaborator, passed in as a parameter. -/
def bootstrap (app : VNode) (d : Doc) : Outcome :=
  let importTrace := [Effect.styleLoad stylesheetPath]
  let target := getElementById d "root"
  let lookupTrace := importTrace ++ [Effect.lookup "root"]
  match createRoot target with
  | Except.error e => { doc := d, trace := lookupTrace, error := some e }
  | Except.ok root =>
      let tree := VNode.strictMode app
      { doc := root.render tree d,
        trace := lookupTrace ++ [Effect.createRoot root.container, Effect.renderPass tree],
        error := none }

/-- A successful mount-point lookup yields an in-range position holding an
element that carries the requested identifier. -/
theorem getElementById_found {d : Doc} {i : String} {n : Nat}
    (h : getElementById d i = some n) :
    n < d.length ∧ ∃ e, d[n]? = some e ∧ e.id = i := by
  induction d generalizing n with
  | nil => simp [getElementById] at h
  | cons e rest ih =>
      by_cases hid : e.id = i
      · simp [getElementById, hid] at h
        subst h
        exact ⟨Nat.succ_pos _, e, by simp, hid⟩
      · simp [getElementById, hid, Option.map_eq_some] at h
        obtain ⟨m, hm, rfl⟩ := h
        obtain ⟨hlt, e2, he2, hid2⟩ := ih hm
        exact ⟨Nat.succ_lt_succ hlt, e2, by simpa using he2, hid2⟩

/-- Evaluation of the bootstrap when the mount-point lookup succeeds. -/
theorem bootstrap_found (app : VNode) (d : Doc) (n : Nat)
    (h : getElementById d "root" = some n) :
    bootstrap app d =
      { doc := Root.render ⟨n⟩ (VNode.strictMode app) d,
        trace := [Effect.styleLoad stylesheetPath, Effect.lookup "root",
                  Effect.createRoot n, Effect.renderPass (VNode.strictMode app)],
        error := none } := by
  simp [bootstrap, h, createRoot]

/-- Evaluation of the bootstrap when the mount-point lookup fails. -/
theorem bootstrap_notfound (app : VNode) (d : Doc)
    (h : getElementById d "root" = none) :
    bootstrap app d =
      { doc := d,
        trace := [Effect.styleLoad stylesheetPath, Effect.lookup "root"],
        error := some "createRoot: Target container is not a DOM element." } := by
  simp [bootstrap, h, createRoot]

/-- The rendered text output of a tree does not depend on the diagnostic
flag; only the hook trace does. -/
theorem renderRun_fst_eq (t : VNode) (b₁ b₂ : Bool) :
    (renderRun b₁ t).1 = (renderRun b₂ t).1 := by
  induction t with
  | text s => rfl
  | pair a b iha ihb => simp [renderRun, iha, ihb]
  | effectful n c ih => simp [renderRun, ih]
  | strictMode c ih => simp [renderRun]

/-- C1: for every host document containing a "root" element, the bootstrap
creates exactly one render root, bound to the resolved element, and issues
exactly one render pass of the wrapped application component tree; no second
root is ever created against the mount point during the run. -/
theorem bootstrap_creates_one_root_one_render (app : VNode) (d : Doc) (n : Nat)
    (h : getElementById d "root" = some n) :
    (bootstrap app d).trace.countP Effect.isCreateRoot = 1 ∧
    (bootstrap app d).trace.countP Effect.isRenderPass = 1 ∧
    Effect.createRoot n ∈ (bootstrap app d).trace ∧
    Effect.renderPass (VNode.strictMode app) ∈ (bootstrap app d).trace := by
  rw [bootstrap_found app d n h]
  refine ⟨?_, ?_, ?_, ?_⟩ <;>
    simp [List.countP_cons, Effect.isCreateRoot, Effect.isRenderPass]

/-- Witness for C1 at the concrete document containing one "root" element. -/
theorem bootstrap_creates_one_root_one_render_witness :
    getElementById [Element.mk "root" ""] "root" = some 0 ∧
    ((bootstrap (VNode.text "Hello") [Element.mk "root" ""]).trace.countP
        Effect.isCreateRoot = 1 ∧
     (bootstrap (VNode.text "Hello") [Element.mk "root" ""]).trace.countP
        Effect.isRenderPass = 1 ∧
     Effect.createRoot 0 ∈ (bootstrap (VNode.text "Hello") [Element.mk "root" ""]).trace ∧
     Effect.renderPass (VNode.strictMode (VNode.text "Hello")) ∈
        (bootstrap (VNode.text "Hello") [Element.mk "root" ""]).trace) :=
  ⟨by decide,
   bootstrap_creates_one_root_one_render (VNode.text "Hello")
     [Element.mk "root" ""] 0 (by decide)⟩

/-- C2: when the host document has no "root" element, the bootstrap surfaces
the framework's uncaught error and does not silently succeed. -/
theorem bootstrap_missing_root_errors (app : VNode) (d : Doc)
    (h : getElementById d "root" = none) :
    (bootstrap app d).error =
      some "createRoot: Target container is not a DOM element." ∧
    (bootstrap app d).error.isSome = true := by
  rw [bootstrap_notfound app d h]
  exact ⟨rfl, rfl⟩

/-- Witness for C2 at a concrete document lacking a "root" element. -/
theorem bootstrap_missing_root_errors_witness :
    getElementById [Element.mk "header" "x"] "root" = none ∧
    ((bootstrap (VNode.text "Hello") [Element.mk "header" "x"]).error =
       some "createRoot: Target container is not a DOM element." ∧
     (bootstrap (VNode.text "Hello") [Element.mk "header" "x"]).error.isSome = true) :=
  ⟨by decide,
   bootstrap_missing_root_errors (VNode.text "Hello") [Element.mk "header" "x"] (by decide)⟩

/-- C3: the bootstrap resolves its mount point by the fixed identifier "root"
and no other, the resolved node indeed carries that identifier, the render
root is bound to exactly that node, and no node is created on demand (the
document keeps its length). -/
theorem bootstrap_fixed_identifier_binding (app : VNode) (d : Doc) (n : Nat)
    (h : getElementById d "root" = some n) :
    (bootstrap app d).trace.countP Effect.isLookup = 1 ∧
    Effect.lookup "root" ∈ (bootstrap app d).trace ∧
    (∀ s, Effect.lookup s ∈ (bootstrap app d).trace → s = "root") ∧
    (∃ e, d[n]? = some e ∧ e.id = "root") ∧
    Effect.createRoot n ∈ (bootstrap app d).trace ∧
    (bootstrap app d).doc.length = d.length := by
  obtain ⟨hlt, e, he, hid⟩ := getElementById_found h
  rw [bootstrap_found app d n h]
  refine ⟨?_, ?_, ?_, ⟨e, he, hid⟩, ?_, ?_⟩
  · simp [List.countP_cons, Effect.isLookup]
  · simp
  · intro s hs
    simpa using hs
  · simp
  · simp [Root.render, he]

/-- Witness for C3 at the concrete document containing one "root" element. -/
theorem bootstrap_fixed_identifier_binding_witness :
    getElementById [Element.mk "root" ""] "root" = some 0 ∧
    ((bootstrap (VNode.text "Hi") [Element.mk "root" ""]).trace.countP
        Effect.isLookup = 1 ∧
     Effect.lookup "root" ∈ (bootstrap (VNode.text "Hi") [Element.mk "root" ""]).trace ∧
     (∀ s, Effect.lookup s ∈ (bootstrap (VNode.text "Hi") [Element.mk "root" ""]).trace →
        s = "root") ∧
     (∃ e, ([Element.mk "root" ""] : Doc)[0]? = some e ∧ e.id = "root") ∧
     Effect.createRoot 0 ∈ (bootstrap (VNode.text "Hi") [Element.mk "root" ""]).trace ∧
     (bootstrap (VNode.text "Hi") [Element.mk "root" ""]).doc.length =
        ([Element.mk "root" ""] : Doc).length) :=
  ⟨by decide,
   bootstrap_fixed_identifier_binding (VNode.text "Hi") [Element.mk "root" ""] 0 (by decide)⟩

/-- C4: rendering a tree under the diagnostic (strict-mode) wrapper yields
rendered output structurally equal to rendering the tree without the wrapper,
for every tree and every ambient diagnostic flag, while lifecycle hooks may
observably fire twice under the wrapper (shown on a concrete tree). -/
theorem strictMode_preserves_output :
    (∀ (strict : Bool) (t : VNode),
        (renderRun strict (VNode.strictMode t)).1 = (renderRun strict t).1) ∧
    (renderRun false (VNode.strictMode (VNode.effectful "setup" (VNode.text "Hello")))).2 =
      ["setup", "setup"] ∧
    (renderRun false (VNode.effectful "setup" (VNode.text "Hello"))).2 = ["setup"] := by
  refine ⟨?_, rfl, rfl⟩
  intro strict t
  exact renderRun_fst_eq t true strict

/-- C5: in every run where the mount point resolves, the effects occur in
strict order: lookup at position 1, root creation at position 2, render pass
at position 3 of the trace, each occurring exactly once (the stylesheet load
occupies position 0). -/
theorem bootstrap_step_order (app : VNode) (d : Doc) (n : Nat)
    (h : getElementById d "root" = some n) :
    (bootstrap app d).trace[1]? = some (Effect.lookup "root") ∧
    (bootstrap app d).trace[2]? = some (Effect.createRoot n) ∧
    (bootstrap app d).trace[3]? = some (Effect.renderPass (VNode.strictMode app)) ∧
    (bootstrap app d).trace.length = 4 ∧
    (bootstrap app d).trace.countP Effect.isLookup = 1 ∧
    (bootstrap app d).trace.countP Effect.isCreateRoot = 1 ∧
    (bootstrap app d).trace.countP Effect.isRenderPass = 1 := by
  rw [bootstrap_found app d n h]
  refine ⟨?_, ?_, ?_, ?_, ?_, ?_, ?_⟩ <;>
    simp [List.countP_cons, Effect.isLookup, Effect.isCreateRoot, Effect.isRenderPass]

/-- Witness for C5 at the concrete document containing one "root" element. -/
theorem bootstrap_step_order_witness :
    getElementById [Element.mk "root" ""] "root" = some 0 ∧
    ((bootstrap (VNode.text "Hi") [Element.mk "root" ""]).trace[1]? =
        some (Effect.lookup "root") ∧
     (bootstrap (VNode.text "Hi") [Element.mk "root" ""]).trace[2]? =
        some (Effect.createRoot 0) ∧
     (bootstrap (VNode.text "Hi") [Element.mk "root" ""]).trace[3]? =
        some (Effect.renderPass (VNode.strictMode (VNode.text "Hi"))) ∧
     (bootstrap (VNode.text "Hi") [Element.mk "root" ""]).trace.length = 4 ∧
     (bootstrap (VNode.text "Hi") [Element.mk "root" ""]).trace.countP
        Effect.isLookup = 1 ∧
     (bootstrap (VNode.text "Hi") [Element.mk "root" ""]).trace.countP
        Effect.isCreateRoot = 1 ∧
     (bootstrap (VNode.text "Hi") [Element.mk "root" ""]).trace.countP
        Effect.isRenderPass = 1) :=
  ⟨by decide,
   bootstrap_step_order (VNode.text "Hi") [Element.mk "root" ""] 0 (by decide)⟩

/-- C6: on the host document consisting of one empty "root" element, with the
application component rendering the literal text "Hello", the bootstrap leaves
the "root" node with rendered text content "Hello" and raises no error. -/
theorem bootstrap_hello_scenario :
    (bootstrap (VNode.text "Hello") [Element.mk "root" ""]).doc =
      [Element.mk "root" "Hello"] ∧
    (bootstrap (VNode.text "Hello") [Element.mk "root" ""]).error = none := by
  constructor <;> rfl

/-- C7: the stylesheet load fires as the import-time effect at position 0 of
the trace, hence strictly before any render pass. -/
theorem stylesheet_load_precedes_render (app : VNode) (d : Doc) (k : Nat) (e : Effect)
    (hk : (bootstrap app d).trace[k]? = some e) (he : e.isRenderPass = true) :
    (bootstrap app d).trace[0]? = some (Effect.styleLoad stylesheetPath) ∧ 0 < k := by
  have h0 : (bootstrap app d).trace[0]? = some (Effect.styleLoad stylesheetPath) := by
    cases hroot : getElementById d "root" with
    | none => rw [bootstrap_notfound app d hroot]; simp
    | some n => rw [bootstrap_found app d n hroot]; simp
  refine ⟨h0, ?_⟩
  cases k with
  | zero =>
      rw [h0] at hk
      obtain rfl := Option.some.inj hk
      simp [Effect.isRenderPass] at he
  | succ m => exact Nat.succ_pos m

/-- Witness for C7 at the concrete document containing one "root" element,
with the render pass sitting at position 3. -/
theorem stylesheet_load_precedes_render_witness :
    (bootstrap (VNode.text "Hi") [Element.mk "root" ""]).trace[3]? =
      some (Effect.renderPass (VNode.strictMode (VNode.text "Hi"))) ∧
    (Effect.renderPass (VNode.strictMode (VNode.text "Hi"))).isRenderPass = true ∧
    ((bootstrap (VNode.text "Hi") [Element.mk "root" ""]).trace[0]? =
       some (Effect.styleLoad stylesheetPath) ∧ 0 < 3) :=
  ⟨by decide, rfl,
   stylesheet_load_precedes_render (VNode.text "Hi") [Element.mk "root" ""] 3
     (Effect.renderPass (VNode.strictMode (VNode.text "Hi"))) (by decide) rfl⟩

/-- C8: when the mount-point lookup yields nothing, the bootstrap fails at the
root-creation step: an error is raised, no render pass and no root creation
appear in the trace, and the host document is left exactly unchanged. -/
theorem bootstrap_atomic_failure (app : VNode) (d : Doc)
    (h : getElementById d "root" = none) :
    (bootstrap app d).doc = d ∧
    (bootstrap app d).trace.countP Effect.isRenderPass = 0 ∧
    (bootstrap app d).trace.countP Effect.isCreateRoot = 0 ∧
    (bootstrap app d).error.isSome = true := by
  rw [bootstrap_notfound app d h]
  refine ⟨rfl, ?_, ?_, rfl⟩ <;>
    simp [List.countP_cons, Effect.isRenderPass, Effect.isCreateRoot]

/-- Witness for C8 at a concrete document lacking a "root" element. -/
theorem bootstrap_atomic_failure_witness :
    getElementById [Element.mk "main" "y"] "root" = none ∧
    ((bootstrap (VNode.text "Hi") [Element.mk "main" "y"]).doc =
       [Element.mk "main" "y"] ∧
     (bootstrap (VNode.text "Hi") [Element.mk "main" "y"]).trace.countP
        Effect.isRenderPass = 0 ∧
     (bootstrap (VNode.text "Hi") [Element.mk "main" "y"]).trace.countP
        Effect.isCreateRoot = 0 ∧
     (bootstrap (VNode.text "Hi") [Element.mk "main" "y"]).error.isSome = true) :=
  ⟨by decide,
   bootstrap_atomic_failure (VNode.text "Hi") [Element.mk "main" "y"] (by decide)⟩

/-- C9: the bootstrap is deterministic: any two runs whose documents resolve
the "root" lookup identically perform the identical effect sequence and have
identical error behavior; nothing else in the document, and no other input,
influences the effects. -/
theorem bootstrap_deterministic (app : VNode) (d₁ d₂ : Doc)
    (h : getElementById d₁ "root" = getElementById d₂ "root") :
    (bootstrap app d₁).trace = (bootstrap app d₂).trace ∧
    (bootstrap app d₁).error = (bootstrap app d₂).error := by
  cases hc : getElementById d₁ "root" with
  | none =>
      rw [bootstrap_notfound app d₁ hc, bootstrap_notfound app d₂ (h ▸ hc)]
      exact ⟨rfl, rfl⟩
  | some n =>
      rw [bootstrap_found app d₁ n hc, bootstrap_found app d₂ n (h ▸ hc)]
      exact ⟨rfl, rfl⟩

/-- Witness for C9 on two distinct documents with identical lookup results. -/
theorem bootstrap_deterministic_witness :
    getElementById [Element.mk "root" ""] "root" =
      getElementById [Element.mk "root" "old", Element.mk "nav" "menu"] "root" ∧
    ((bootstrap (VNode.text "Hi") [Element.mk "root" ""]).trace =
       (bootstrap (VNode.text "Hi")
         [Element.mk "root" "old", Element.mk "nav" "menu"]).trace ∧
     (bootstrap (VNode.text "Hi") [Element.mk "root" ""]).error =
       (bootstrap (VNode.text "Hi")
         [Element.mk "root" "old", Element.mk "nav" "menu"]).error) :=
  ⟨by decide,
   bootstrap_deterministic (VNode.text "Hi") [Element.mk "root" ""]
     [Element.mk "root" "old", Element.mk "nav" "menu"] (by decide)⟩

/-- C10: the bootstrap mutates the host document only at the resolved "root"
node: every other position holds exactly its original element, and even the
"root" node keeps its identifier. -/
theorem bootstrap_frame_condition (app : VNode) (d : Doc) (n : Nat) (i : Nat)
    (h : getElementById d "root" = some n) (hi : i ≠ n) :
    (bootstrap app d).doc[i]? = d[i]? ∧
    ((bootstrap app d).doc[n]?).map Element.id = (d[n]?).map Element.id := by
  obtain ⟨hlt, e, he, hid⟩ := getElementById_found h
  rw [bootstrap_found app d n h]
  constructor
  · simp only [Root.render, he]
    exact List.getElem?_set_ne (Ne.symm hi)
  · simp only [Root.render, he]
    rw [List.getElem?_set_eq_of_lt _ hlt]
    simp

/-- Witness for C10 on a two-element document, checking the non-root node. -/
theorem bootstrap_frame_condition_witness :
    getElementById [Element.mk "root" "", Element.mk "nav" "menu"] "root" = some 0 ∧
    (1 : Nat) ≠ 0 ∧
    ((bootstrap (VNode.text "Hi")
        [Element.mk "root" "", Element.mk "nav" "menu"]).doc[1]? =
       ([Element.mk "root" "", Element.mk "nav" "menu"] : Doc)[1]? ∧
     ((bootstrap (VNode.text "Hi")
        [Element.mk "root" "", Element.mk "nav" "menu"]).doc[0]?).map Element.id =
       (([Element.mk "root" "", Element.mk "nav" "menu"] : Doc)[0]?).map Element.id) :=
  ⟨by decide, by decide,
   bootstrap_frame_condition (VNode.text "Hi")
     [Element.mk "root" "", Element.mk "nav" "menu"] 0 1 (by decide) (by decide)⟩

end CleanproBootstrap
